import Mathlib

/-!
Verification of the locally authored logic in
`src/8-week8/0-classifier-introduction.ipynb`.

The notebook defines two functions:

```
def classify_price(price):
    if price < 80:
        return "low"
    elif price < 140:
        return "medium"
    else:
        return "high"
```

```
def pprint_preds(p):
    print("Iris Predictions")
    print("----------------")
    print(textwrap.fill(",".join(predictions)))
```

Python numeric scalars are embedded as rationals (`ℚ`); the comparisons
`<` on numbers are total and exact there, matching the order semantics of
the Python comparisons used.  The program's global state visible to these
functions is the global variable `predictions`, modelled as a record; a
function call is embedded as a state-passing function returning the text
it prints together with the resulting state.  `textwrap.fill` is external
library code; the theorems about `pprint_preds` are stated generically
over an arbitrary fill function, since none of the properties considered
here depend on how the fill wraps its input.
-/

/-- Embedding of `classify_price` from the notebook: a three-way
threshold classifier on a numeric scalar. -/
def classify_price (price : ℚ) : String :=
  if price < 80 then "low"
  else if price < 140 then "medium"
  else "high"

/-- The global state visible to the notebook's functions: the global
variable `predictions` (a sequence of prediction strings). -/
structure PyState where
  predictions : List String
deriving Repr, DecidableEq

/-- State-passing embedding of a call to `classify_price`: the body reads
and writes no global, so the state threads through unchanged and the
returned label is computed from the argument alone. -/
def classify_priceSt (st : PyState) (price : ℚ) : String × PyState :=
  (classify_price price, st)

/-- State-passing embedding of a call to `pprint_preds fill st p`: it
prints a two-line header and then the comma-join of the global
`predictions` passed through `textwrap.fill` (abstracted as `fill`).
The result is the printed text together with the unchanged state.
Note that the body never uses the parameter `p`. -/
def pprint_preds (fill : String → String) (st : PyState) (p : List String) :
    String × PyState :=
  ("Iris Predictions\n" ++ "----------------\n" ++
    fill (String.intercalate "," st.predictions) ++ "\n", st)

/-- Exception-aware embedding of `classify_price`: each Python `<`
comparison between numbers is a total operation that never raises, so it
is modelled as an `Except` computation that always succeeds. -/
def ltNum (a b : ℚ) : Except String Bool :=
  Except.ok (decide (a < b))

/-- `classify_price` with its control flow spelled out over the
exception-aware comparisons: the function contains no error branch of its
own, so the only way it could fail is a comparison failing. -/
def classify_priceExc (price : ℚ) : Except String String := do
  if (← ltNum price 80) then return "low"
  else if (← ltNum price 140) then return "medium"
  else return "high"

/-- Rank of a label in the order "low" < "medium" < "high"; any string
other than the two smaller labels ranks highest. -/
def labelRank (l : String) : Nat :=
  if l = "low" then 0 else if l = "medium" then 1 else 2

/-- C1: every numeric input strictly below 80 is classified "low". -/
theorem classify_price_lt80_low (price : ℚ) (h : price < 80) :
    classify_price price = "low" := by
  unfold classify_price
  simp [h]

/-- Witness for C1 at the concrete input 42. -/
theorem classify_price_lt80_low_witness :
    (42 : ℚ) < 80 ∧ classify_price 42 = "low" :=
  ⟨by norm_num, classify_price_lt80_low 42 (by norm_num)⟩

/-- C2: every numeric input in [80, 140) is classified "medium". -/
theorem classify_price_mid_medium (price : ℚ) (h₁ : 80 ≤ price)
    (h₂ : price < 140) : classify_price price = "medium" := by
  unfold classify_price
  have h₃ : ¬ price < 80 := not_lt.mpr h₁
  simp [h₂, h₃]

/-- Witness for C2 at the boundary input 80 itself, confirming in
particular that `classify_price 80 = "medium"`. -/
theorem classify_price_mid_medium_witness :
    (80 : ℚ) ≤ 80 ∧ (80 : ℚ) < 140 ∧ classify_price 80 = "medium" :=
  ⟨by norm_num, by norm_num,
    classify_price_mid_medium 80 (by norm_num) (by norm_num)⟩

/-- C3: every numeric input at least 140 is classified "high". -/
theorem classify_price_ge140_high (price : ℚ) (h : 140 ≤ price) :
    classify_price price = "high" := by
  unfold classify_price
  have h₁ : ¬ price < 80 := not_lt.mpr (le_trans (by norm_num) h)
  have h₂ : ¬ price < 140 := not_lt.mpr h
  simp [h₁, h₂]

/-- Witness for C3 at the boundary input 140 itself, confirming in
particular that `classify_price 140 = "high"`. -/
theorem classify_price_ge140_high_witness :
    (140 : ℚ) ≤ 140 ∧ classify_price 140 = "high" :=
  ⟨by norm_num, classify_price_ge140_high 140 (by norm_num)⟩

/-- C4: `classify_price` is total on numeric scalars: every input is
mapped to exactly one of the three fixed labels; the two threshold
comparisons are exhaustive and mutually exclusive. -/
theorem classify_price_total (price : ℚ) :
    ∃! l : String,
      (l = "low" ∨ l = "medium" ∨ l = "high") ∧ classify_price price = l := by
  refine ⟨classify_price price, ⟨?_, rfl⟩, ?_⟩
  · unfold classify_price
    split_ifs <;> simp
  · rintro l ⟨-, hl⟩
    exact hl.symm

/-- C5: the code of `pprint_preds` never uses its parameter: at the
failing input — global `predictions = ["setosa"]`, argument
`["versicolor"]` — the printed text is built from the global and is
identical to the text printed for the distinct argument `["virginica"]`,
so the output is not the comma-join of the argument. -/
theorem pprint_preds_ignores_argument :
    ∀ fill : String → String,
      (pprint_preds fill ⟨["setosa"]⟩ ["versicolor"]).1 =
        (pprint_preds fill ⟨["setosa"]⟩ ["virginica"]).1 ∧
      (pprint_preds fill ⟨["setosa"]⟩ ["versicolor"]).1 =
        "Iris Predictions\n" ++ "----------------\n" ++ fill "setosa" ++ "\n" :=
  fun _ => ⟨rfl, rfl⟩

/-- C6: neither function mutates program state: for every state, calling
`classify_price` or `pprint_preds` leaves the global state unchanged. -/
theorem calls_preserve_state :
    ∀ (fill : String → String) (st : PyState) (price : ℚ) (p : List String),
      (classify_priceSt st price).2 = st ∧ (pprint_preds fill st p).2 = st :=
  fun _ _ _ _ => ⟨rfl, rfl⟩

/-- C7: `classify_price` has no error branch and performs no validation:
for every numeric input the exception-aware evaluation succeeds, returning
the pure classification. -/
theorem classify_price_never_raises (price : ℚ) :
    classify_priceExc price = Except.ok (classify_price price) := by
  unfold classify_priceExc ltNum classify_price
  by_cases h₁ : price < 80 <;> by_cases h₂ : price < 140 <;>
    simp [h₁, h₂, bind, Except.bind, pure, Except.pure]

/-- C8: `classify_price` is deterministic: its result depends on nothing
but the argument, so two evaluations — under any two program states —
yield the same label. -/
theorem classify_price_deterministic :
    ∀ (st₁ st₂ : PyState) (price : ℚ),
      (classify_priceSt st₁ price).1 = (classify_priceSt st₂ price).1 ∧
      (classify_priceSt st₁ price).1 = classify_price price :=
  fun _ _ _ => ⟨rfl, rfl⟩

/-- C9: `classify_price` is monotone with respect to the label order
"low" < "medium" < "high". -/
theorem classify_price_monotone (p₁ p₂ : ℚ) (h : p₁ ≤ p₂) :
    labelRank (classify_price p₁) ≤ labelRank (classify_price p₂) := by
  unfold classify_price
  split_ifs with h₁ h₂ h₃ h₄ <;> simp [labelRank] <;> linarith

/-- Witness for C9 at the concrete pair (0, 200). -/
theorem classify_price_monotone_witness :
    (0 : ℚ) ≤ 200 ∧
      labelRank (classify_price 0) ≤ labelRank (classify_price 200) :=
  ⟨by norm_num, classify_price_monotone 0 200 (by norm_num)⟩

/-- C10: the printed output of `pprint_preds` does not depend on its
parameter: with the global `predictions` held fixed, any two arguments
produce identical output. -/
theorem pprint_preds_output_const_in_arg :
    ∀ (fill : String → String) (st : PyState) (p₁ p₂ : List String),
      (pprint_preds fill st p₁).1 = (pprint_preds fill st p₂).1 :=
  fun _ _ _ _ => rfl
